import Mathlib

/-!
Verification development for the AcadWell backend wellness engine.

The definitions below are shallow embeddings of the Python modules
`app/utils/mental_health_analyzer.py`, `app/utils/wellness_notifications.py`,
`app/utils/notification_manager.py` and `app/utils/email_service.py`.
Python floats are modelled as exact rationals; the display-only
`round(x, 2)` calls of the source (applied to the returned score, the
confidence value and the trend percentages just before they are placed in
the result dictionaries) are omitted, the values here are the exact
rationals those roundings approximate.  Timestamps are modelled as integer
seconds; `datetime.timedelta(hours=h)` becomes `h * 3600`.
-/

namespace AcadWell

/-- Python strings are modelled as lists of characters so that the index
arithmetic of `str.find` and slicing is explicit. -/
abbrev Chars := List Char

/-- `s.lower()` : character-wise lower casing. -/
def lowerChars (s : String) : Chars := s.data.map Char.toLower

/-- `s.strip()` : remove whitespace from both ends. -/
def trimChars (l : Chars) : Chars :=
  ((l.dropWhile Char.isWhitespace).reverse.dropWhile Char.isWhitespace).reverse

/-- `needle` occurs at the start of `hay`. -/
def isStartOf : Chars → Chars → Bool
  | [], _ => true
  | _ :: _, [] => false
  | a :: as, b :: bs => a == b && isStartOf as bs

/-- `hay.find(needle)` : index of the first occurrence, `none` when absent
(the Python function returns -1 in that case). -/
def strFind (needle : Chars) : Chars → Option Nat
  | [] => if isStartOf needle [] then some 0 else none
  | c :: t =>
    if isStartOf needle (c :: t) then some 0
    else (strFind needle t).map (· + 1)

/-- `needle in hay` for Python strings. -/
def containsSub (hay needle : Chars) : Bool := (strFind needle hay).isSome

/-- `s.split()` : split on whitespace runs, dropping empty tokens.
The first argument accumulates the current token in reverse. -/
def splitWsAux : Chars → Chars → List Chars
  | acc, [] => if acc.isEmpty then [] else [acc.reverse]
  | acc, c :: t =>
    if c.isWhitespace then
      if acc.isEmpty then splitWsAux [] t else acc.reverse :: splitWsAux [] t
    else splitWsAux (c :: acc) t

def splitWs (l : Chars) : List Chars := splitWsAux [] l

/-- `s[:n]` for Python strings. -/
def takeStr (n : Nat) (s : String) : String := String.mk (s.data.take n)

/-! ## Lexicon (`CRISIS_KEYWORDS`, `INTENSITY_PATTERNS`, `NEGATION_WORDS`) -/

structure KeywordTier where
  name : String
  keywords : List String
  score : ℚ
  category : String
deriving DecidableEq

/-- The `CRISIS_KEYWORDS` dictionary, in its (insertion-ordered) key order. -/
def CRISIS_KEYWORDS : List KeywordTier := [
  { name := "critical",
    keywords := ["suicide", "kill myself", "want to die", "end my life", "end it all",
      "better off dead", "no reason to live", "take my life", "suicidal",
      "end it", "ending it", "want to end", "going to end"],
    score := 45, category := "crisis" },
  { name := "self_harm",
    keywords := ["self-harm", "hurt myself", "cut myself", "harm myself", "cutting",
      "self injury", "want to hurt"],
    score := 35, category := "crisis" },
  { name := "severe_distress",
    keywords := ["give up", "no point", "hopeless", "worthless", "useless",
      "failure", "can\x27t take it", "unbearable", "falling apart",
      "broken", "nothing matters", "why bother", "can\x27t go on"],
    score := 25, category := "severe" },
  { name := "high_distress",
    keywords := ["depressed", "depression", "anxious", "anxiety", "panic attack",
      "overwhelmed", "can\x27t cope", "breaking down", "stressed out",
      "exhausted mentally", "losing control", "scared", "terrified",
      "isolated", "alone", "lonely", "nobody cares"],
    score := 15, category := "high" },
  { name := "moderate_concern",
    keywords := ["stressed", "worried", "nervous", "sad", "upset", "tired",
      "struggling", "difficult time", "hard to focus", "can\x27t sleep",
      "insomnia", "nightmare", "crying", "unmotivated"],
    score := 8, category := "moderate" },
  { name := "positive_indicators",
    keywords := ["feeling better", "improving", "grateful", "thankful", "hopeful",
      "optimistic", "proud", "accomplished", "happy", "excited",
      "motivated", "energized", "confident", "peaceful", "relaxed",
      "relieved", "progress", "getting better", "moving forward"],
    score := -10, category := "positive" }
]

/-- `INTENSITY_PATTERNS`, in dictionary order (the first matching entry wins). -/
def INTENSITY_PATTERNS : List (String × ℚ) :=
  [("very", 13/10), ("extremely", 3/2), ("really", 6/5), ("so", 6/5),
   ("too", 13/10), ("completely", 7/5), ("totally", 7/5), ("absolutely", 7/5)]

def NEGATION_WORDS : List String :=
  ["not", "no", "never", "neither", "nobody", "nothing", "nowhere", "hardly", "barely"]

/-! ## Helper functions of the analyzer -/

/-- `check_negation(text, keyword)` : look at the 10 characters before the
first occurrence of the keyword; negated when a negation word appears there
as a whole token. -/
def check_negation (text keyword : Chars) : Bool :=
  match strFind keyword text with
  | none => false
  | some pos =>
    let before_text := trimChars ((text.take pos).drop (pos - 10))
    NEGATION_WORDS.any (fun n => (splitWs before_text).contains n.data)

/-- `check_intensity(text, keyword)` : look at the 15 characters before the
first occurrence of the keyword; the first intensifier found as a substring
gives its multiplier, otherwise 1. -/
def check_intensity (text keyword : Chars) : ℚ :=
  match strFind keyword text with
  | none => 1
  | some pos =>
    let before_text := ((text.take pos).drop (pos - 15)).map Char.toLower
    match INTENSITY_PATTERNS.find? (fun p => containsSub before_text p.1.data) with
    | some p => p.2
    | none => 1

structure DetectedKeyword where
  keyword : String
  category : String
  severity : String
  negated : Bool
deriving DecidableEq

structure ScanState where
  detected : List DetectedKeyword
  base_score : ℚ
  categories_found : List String
deriving DecidableEq

/-- Python set insertion, realised as first-insertion-ordered deduplication. -/
def addCategory (cats : List String) (c : String) : List String :=
  if cats.contains c then cats else cats ++ [c]

/-- Inner keyword loop of `analyze_text` for one tier.  The rational
argument is the mutable `keyword_score` variable of the source: it is
initialised once per tier and the negation and intensity scalings applied
for one match persist into the later matches of the same tier. -/
def scanTierGo (text : Chars) (tierName category : String) :
    List String → ℚ → ScanState → ScanState
  | [], _, st => st
  | kw :: rest, keyword_score, st =>
    if containsSub text kw.data then
      let is_negated := check_negation text kw.data
      let s1 := if is_negated then keyword_score * (3/10) else keyword_score
      let s2 := s1 * check_intensity text kw.data
      scanTierGo text tierName category rest s2
        { detected := st.detected ++ [⟨kw, category, tierName, is_negated⟩],
          base_score := st.base_score + s2,
          categories_found := addCategory st.categories_found category }
    else
      scanTierGo text tierName category rest keyword_score st

/-- Outer tier loop of `analyze_text`. -/
def scanAllTiers (text : Chars) : ScanState :=
  CRISIS_KEYWORDS.foldl
    (fun st tier => scanTierGo text tier.name tier.category tier.keywords tier.score st)
    ⟨[], 0, []⟩

/-- Python `str.isupper()` : at least one cased character and no lower-case
cased character (ASCII reading). -/
def isUpperPy (l : Chars) : Bool :=
  l.any (fun c => c.isUpper || c.isLower) && !(l.any Char.isLower)

/-- Some token is immediately repeated three times. -/
def hasTripleRepeat : List Chars → Bool
  | a :: b :: c :: t => (a == b && b == c) || hasTripleRepeat (b :: c :: t)
  | _ => false

def CRISIS_QUESTION_PHRASES : List String := ["how to", "ways to", "should i"]

def CRISIS_QUESTION_WORDS : List String := ["die", "end", "kill", "hurt"]

/-- `analyze_behavioral_patterns(text)`.  The crisis-question loop has no
break, so the +15 is added once per matching phrase. -/
def analyze_behavioral_patterns (text : Chars) : ℚ :=
  let s1 : ℚ := if text.length > 10 && isUpperPy text then 5 else 0
  let s2 : ℚ := if containsSub text "!!!".data || containsSub text "???".data then 3 else 0
  let s3 : ℚ := if hasTripleRepeat (splitWs text) then 5 else 0
  let has_crisis := CRISIS_QUESTION_WORDS.any (fun w => containsSub text w.data)
  let s4 : ℚ :=
    ((CRISIS_QUESTION_PHRASES.filter
        (fun q => containsSub text q.data && has_crisis)).length : ℚ) * 15
  s1 + s2 + s3 + s4

/-- `determine_level(score)`. -/
def determine_level (score : ℚ) : String :=
  if 80 ≤ score then "red"
  else if 60 ≤ score then "orange"
  else if 30 ≤ score then "yellow"
  else "green"

/-- `calculate_confidence(keywords, behavioral_score)`.  The value is an
integer here, so the `round(_, 2)` of the source is the identity. -/
def calculate_confidence (keywords : List DetectedKeyword) (behavioral_score : ℚ) : ℚ :=
  if keywords.length = 0 ∧ behavioral_score = 0 then 0
  else min 100 ((keywords.length : ℚ) * 15 + behavioral_score * 2)

/-- `get_sentiment(keywords, score)`. -/
def get_sentiment (keywords : List DetectedKeyword) (score : ℚ) : String :=
  if 60 ≤ score then "very_negative"
  else if 30 ≤ score then "negative"
  else if 15 ≤ score then "slightly_negative"
  else if keywords.any (fun kw => kw.category == "positive") then "positive"
  else "neutral"

/-- `generate_recommendations(level, categories)`. -/
def generate_recommendations (level : String) (categories : List String) : List String :=
  if categories.contains "crisis" ∨ level = "red" then
    ["Immediate intervention recommended",
     "Contact counselor or crisis helpline",
     "Do not leave person alone"]
  else if level = "orange" then
    ["Reach out within 24 hours",
     "Offer support and resources",
     "Schedule counseling session"]
  else if level = "yellow" then
    ["Check in with student",
     "Provide wellness resources",
     "Monitor for changes"]
  else
    ["Continue regular wellness checks",
     "Encourage positive habits"]

/-- Python dictionaries of heterogeneous shape are modelled as a record
with `Option` fields; the short-circuit return of `analyze_text` omits the
`categories`, `recommendations` and `context` keys, which appear here as
`none`. -/
structure AnalysisResult where
  score : ℚ
  level : String
  keywords_detected : List DetectedKeyword
  sentiment : String
  needs_attention : Bool
  confidence : ℚ
  categories : Option (List String)
  recommendations : Option (List String)
  context : Option String
deriving DecidableEq

/-- The dictionary returned for null, non-string, empty or too-short input. -/
def zeroNeutralResult : AnalysisResult :=
  { score := 0, level := "green", keywords_detected := [], sentiment := "neutral",
    needs_attention := false, confidence := 0,
    categories := none, recommendations := none, context := none }

/-- The argument of `analyze_text` is untyped Python data: `None`, a
string, or a value of any other type. -/
inductive PyInput where
  | pyNone
  | pyStr (s : String)
  | pyNonStr
deriving DecidableEq

/-- `analyze_text(text, context)`. -/
def analyze_text (input : PyInput) (context : String) : AnalysisResult :=
  match input with
  | .pyNone => zeroNeutralResult
  | .pyNonStr => zeroNeutralResult
  | .pyStr s =>
    if s = "" then zeroNeutralResult
    else
      let text_lower := trimChars (lowerChars s)
      if text_lower.length < 3 then zeroNeutralResult
      else
        let st := scanAllTiers text_lower
        let behavioral_score := analyze_behavioral_patterns text_lower
        let final_score := max 0 (min 100 (st.base_score + behavioral_score))
        let level := determine_level final_score
        { score := final_score,
          level := level,
          keywords_detected := st.detected,
          sentiment := get_sentiment st.detected final_score,
          needs_attention := (level = "red" ∨ level = "orange") ∨
            st.categories_found.contains "crisis",
          confidence := calculate_confidence st.detected behavioral_score,
          categories := some st.categories_found,
          recommendations := some (generate_recommendations level st.categories_found),
          context := some context }

/-! ## Trend analysis (`get_trend_analysis`) -/

structure WellnessLog where
  timestamp : ℤ
  score : ℚ
deriving DecidableEq

/-- Stable insertion used to model Python `sorted(logs, key=timestamp)`:
an element is placed before the strictly later ones and after the earlier
or equal ones, preserving the original order of equal keys. -/
def insertByTs (x : WellnessLog) : List WellnessLog → List WellnessLog
  | [] => [x]
  | y :: t => if x.timestamp ≤ y.timestamp then x :: y :: t else y :: insertByTs x t

def sortByTs (l : List WellnessLog) : List WellnessLog := l.foldr insertByTs []

/-- The trend dictionary.  The insufficient-data return of the source has
no `current_average` and `previous_average` keys, modelled as `none`. -/
structure TrendResult where
  trend : String
  direction : String
  change_percentage : ℚ
  current_average : Option ℚ
  previous_average : Option ℚ
deriving DecidableEq

def sumScores (l : List WellnessLog) : ℚ := (l.map (fun x => x.score)).sum

/-- `get_trend_analysis(wellness_logs)`. -/
def get_trend_analysis (logs : List WellnessLog) : TrendResult :=
  if logs.length < 2 then
    { trend := "insufficient_data", direction := "neutral", change_percentage := 0,
      current_average := none, previous_average := none }
  else
    let sorted_logs := sortByTs logs
    let mid_point := sorted_logs.length / 2
    let first_half := sorted_logs.take mid_point
    let second_half := sorted_logs.drop mid_point
    let avg_first := sumScores first_half / (first_half.length : ℚ)
    let avg_second := sumScores second_half / (second_half.length : ℚ)
    let change := avg_second - avg_first
    let change_percentage := change / max avg_first 1 * 100
    if 10 < change then
      { trend := "worsening", direction := "up", change_percentage := change_percentage,
        current_average := some avg_second, previous_average := some avg_first }
    else if change < -10 then
      { trend := "improving", direction := "down", change_percentage := change_percentage,
        current_average := some avg_second, previous_average := some avg_first }
    else
      { trend := "stable", direction := "neutral", change_percentage := change_percentage,
        current_average := some avg_second, previous_average := some avg_first }

/-! ## Notification state model

The MongoDB collections touched by the alerting path are modelled as lists
inside a `DB` record; `insert_one` appends at the end.  The outcome of the
SendGrid transport (`send_wellness_alert_email` and the other senders of
`email_service.py`, whose success depends on the environment) is modelled
by a boolean `transport` parameter, and an entry is appended to
`sent_emails` whenever a send is attempted. -/

structure User where
  user_id : String
  name : String
  role : String
  email : Option String
deriving DecidableEq

structure Profile where
  user_id : String
  emailNotifications : List (String × Bool)
deriving DecidableEq

/-- One document of the `wellness_alerts` collection (`log_alert_sent`). -/
structure AlertLog where
  user_id : String
  level : String
  timestamp : ℤ
deriving DecidableEq

/-- One document of the `email_notifications` collection (`log_email_sent`;
the `log_id`, `subject` and `retry_count` fields are not read anywhere). -/
structure EmailLog where
  recipient_email : String
  email_type : String
  timestamp : ℤ
  success : Bool
deriving DecidableEq

/-- An attempted outbound email (a call into `send_wellness_alert_email` or
`send_answer_accepted_email`). -/
structure EmailAttempt where
  to_email : String
  email_type : String
deriving DecidableEq

/-- One document of the `notifications` collection.  The different writers
build dictionaries of different shapes, hence the `Option` fields; the
random `notification_id` is not modelled. -/
structure Notification where
  recipient_id : String
  ntype : String
  priority : String
  title : Option String
  message : String
  tips : Option (List String)
  related_id : Option String
  student_id : Option String
  student_name : Option String
  level : Option String
  preview : Option String
  timestamp : ℤ
  read : Bool
deriving DecidableEq

structure DB where
  users : List User
  profiles : List Profile
  notifications : List Notification
  wellness_alerts : List AlertLog
  email_notifications : List EmailLog
  sent_emails : List EmailAttempt
deriving DecidableEq

def lookup_user (db : DB) (uid : String) : Option User :=
  db.users.find? (fun u => u.user_id = uid)

/-- `check_email_sent_recently(db, recipient_email, email_type, hours)`:
a successful email of the same type to the same recipient with timestamp
at or after `now - hours`. -/
def check_email_sent_recently (db : DB) (recipient_email email_type : String)
    (hours : ℤ) (now : ℤ) : Bool :=
  db.email_notifications.any (fun l =>
    l.recipient_email = recipient_email ∧ l.email_type = email_type ∧
    now - hours * 3600 ≤ l.timestamp ∧ l.success = true)

/-- `log_email_sent(db, recipient_email, email_type, subject, success)`. -/
def log_email_sent (db : DB) (recipient_email email_type : String)
    (success : Bool) (now : ℤ) : DB :=
  { db with email_notifications :=
      db.email_notifications ++ [⟨recipient_email, email_type, now, success⟩] }

/-- `NotificationManager._send_email_notification`.  The anti-spam check is
applied only for the types `wellness_alert` and `critical_wellness_alert`;
for any other type a recent duplicate is not looked at.  The three send
branches are collapsed into the `attempted` flag; when no branch matches
`email_sent` stays false and the attempt is still logged, as in the source. -/
def send_email_notification (db : DB) (user : User) (notification_type : String)
    (now : ℤ) (transport : Bool) : Bool × DB :=
  let user_email := user.email.getD ""
  if (notification_type = "wellness_alert" ∨ notification_type = "critical_wellness_alert")
      ∧ check_email_sent_recently db user_email notification_type 2 now then
    (false, db)
  else
    let attempted := notification_type = "critical_wellness_alert" ∨
      notification_type = "high_concern_alert" ∨ notification_type = "accepted_answer"
    let email_sent := attempted ∧ transport
    let db1 := if attempted then
        { db with sent_emails := db.sent_emails ++ [⟨user_email, notification_type⟩] }
      else db
    (email_sent, log_email_sent db1 user_email notification_type email_sent now)

/-- Email-preferences lookup inside `send_notification`: enabled by default,
overridden by the profile entry for this notification type when present. -/
def email_pref_enabled (db : DB) (uid ntype : String) : Bool :=
  match db.profiles.find? (fun p => p.user_id = uid) with
  | none => true
  | some p =>
    match p.emailNotifications.find? (fun kv => kv.1 = ntype) with
    | none => true
    | some kv => kv.2

/-- The `email_context` dictionary built in `send_wellness_alert`. -/
structure EmailContext where
  student_id : String
  student_name : String
  level : String
  preview : String
  context_type : String
  link : String
deriving DecidableEq

/-- The in-app notification document built by `send_notification`,
including the `notification.update(email_context)` merge. -/
def mkNotif (user_id ntype title message : String) (related_id : Option String)
    (priority : String) (email_context : Option EmailContext) (now : ℤ) : Notification :=
  { recipient_id := user_id, ntype := ntype, priority := priority,
    title := some title, message := message, tips := none,
    related_id := related_id,
    student_id := email_context.map (fun c => c.student_id),
    student_name := email_context.map (fun c => c.student_name),
    level := email_context.map (fun c => c.level),
    preview := email_context.map (fun c => c.preview),
    timestamp := now, read := false }

/-- `NotificationManager.send_notification`. -/
def send_notification (db : DB) (user_id ntype title message : String)
    (related_id : Option String) (priority : String) (send_email : Bool)
    (email_context : Option EmailContext) (now : ℤ) (transport : Bool) : DB :=
  let db1 := { db with notifications :=
      db.notifications ++ [mkNotif user_id ntype title message related_id priority email_context now] }
  if send_email then
    match lookup_user db1 user_id with
    | some user =>
      match user.email with
      | some _ =>
        if email_pref_enabled db1 user_id ntype then
          (send_email_notification db1 user ntype now transport).2
        else db1
      | none => db1
    | none => db1
  else db1

/-- The level-to-routing table of `NotificationManager.send_wellness_alert`
(the if/elif/else assigning `notification_type`, `priority`, `send_email`
and `recipient_roles`). -/
structure FanoutSpec where
  notification_type : String
  priority : String
  send_email : Bool
  recipient_roles : List String
deriving DecidableEq

def alertFanout (level : String) : FanoutSpec :=
  if level = "red" then
    ⟨"critical_wellness_alert", "urgent", true, ["teacher", "counselor", "admin"]⟩
  else if level = "orange" then
    ⟨"high_concern_alert", "high", true, ["counselor", "admin"]⟩
  else
    ⟨"monitor_alert", "normal", false, ["admin"]⟩

def alertTitle (level student_name : String) : String :=
  if level = "red" then "CRITICAL: Wellness Alert for " ++ student_name
  else if level = "orange" then "HIGH CONCERN: Wellness Alert for " ++ student_name
  else "Monitor: Wellness Check for " ++ student_name

/-- `NotificationManager.send_wellness_alert`.  The staff cursor is a
snapshot: the users collection is never written inside the loop. -/
def send_wellness_alert (db : DB) (student_id level content_preview context_type : String)
    (now : ℤ) (transport : Bool) : DB :=
  match lookup_user db student_id with
  | none => db
  | some student =>
    let student_name := student.name
    let f := alertFanout level
    let title := alertTitle level student_name
    let message := "Student " ++ student_name ++ " may need attention. Context: " ++ context_type
    let ctx : EmailContext :=
      ⟨student_id, student_name, level, content_preview, context_type,
       "http://localhost:3000/wellness/student/" ++ student_id⟩
    let staff_members := db.users.filter (fun u => f.recipient_roles.contains u.role)
    staff_members.foldl
      (fun acc staff =>
        send_notification acc staff.user_id f.notification_type title message
          (some student_id) f.priority f.send_email (some ctx) now transport)
      db

/-! ## `wellness_notifications.py` : router, throttle and encouragement -/

/-- `throttle_periods.get(level, 24)` in hours. -/
def throttle_hours (level : String) : ℤ :=
  if level = "red" then 2
  else if level = "orange" then 6
  else if level = "yellow" then 24
  else 24

/-- Timestamp of the result of `find_one({user_id, level}, sort=[(timestamp, -1)])`:
the maximal timestamp among the matching alert logs. -/
def maxTimestamp : List ℤ → Option ℤ
  | [] => none
  | t :: rest =>
    match maxTimestamp rest with
    | none => some t
    | some m => some (max t m)

def last_alert_timestamp (db : DB) (user_id level : String) : Option ℤ :=
  maxTimestamp ((db.wellness_alerts.filter
    (fun a => a.user_id = user_id ∧ a.level = level)).map (fun a => a.timestamp))

/-- `should_throttle_alert(user_id, level, db)`. -/
def should_throttle_alert (db : DB) (user_id level : String) (now : ℤ) : Bool :=
  match last_alert_timestamp db user_id level with
  | none => false
  | some ts => now - ts < throttle_hours level * 3600

/-- `log_alert_sent(user_id, level, db)`. -/
def log_alert_sent (db : DB) (user_id level : String) (now : ℤ) : DB :=
  { db with wellness_alerts := db.wellness_alerts ++ [⟨user_id, level, now⟩] }

/-- `send_critical_alert` (RED): delegates to `send_wellness_alert`; the
ImportError fallback path is not modelled (the import succeeds in the
deployed configuration). -/
def send_critical_alert (db : DB) (user_id : String) (content : String)
    (now : ℤ) (transport : Bool) : DB :=
  send_wellness_alert db user_id "red"
    (if content = "" then "Crisis indicators detected" else takeStr 200 content)
    "automated_detection" now transport

/-- `send_high_concern_alert` (ORANGE). -/
def send_high_concern_alert (db : DB) (user_id : String) (content : String)
    (now : ℤ) (transport : Bool) : DB :=
  send_wellness_alert db user_id "orange"
    (if content = "" then "Concerning indicators detected" else takeStr 200 content)
    "automated_detection" now transport

/-- The notification document inserted for each admin by `send_monitor_alert`. -/
def mkMonitorNotif (admin_id : String) (student_id student_name : String)
    (content : String) (now : ℤ) : Notification :=
  { recipient_id := admin_id, ntype := "monitor_alert", priority := "normal",
    title := none,
    message := "Student " ++ student_name ++ " may need support. Consider checking in.",
    tips := none, related_id := none,
    student_id := some student_id, student_name := some student_name,
    level := some "yellow",
    preview := some (if content = "" then "Stress indicators detected"
      else takeStr 100 content),
    timestamp := now, read := false }

/-- `send_monitor_alert` (YELLOW): in-app notifications to admins only,
no email path at all. -/
def send_monitor_alert (db : DB) (user_id : String) (user : User) (content : String)
    (now : ℤ) : DB :=
  let admins := db.users.filter (fun u => u.role = "admin")
  admins.foldl
    (fun acc admin =>
      { acc with notifications :=
          acc.notifications ++ [mkMonitorNotif admin.user_id user_id user.name content now] })
    db

/-- `check_and_send_alerts(user_id, level, content, db)`.  The body runs in
a try/except; `throttle_read_fails` models the read of the
`wellness_alerts` collection raising, in which case the exception is
caught by the outer handler and the function returns with no alert sent
and no state written. -/
def check_and_send_alerts (db : DB) (user_id level content : String) (now : ℤ)
    (transport : Bool) (throttle_read_fails : Bool) : DB :=
  match lookup_user db user_id with
  | none => db
  | some user =>
    if throttle_read_fails then db
    else if should_throttle_alert db user_id level now then db
    else
      let db1 :=
        if level = "red" then send_critical_alert db user_id content now transport
        else if level = "orange" then send_high_concern_alert db user_id content now transport
        else if level = "yellow" then send_monitor_alert db user_id user content now
        else db
      log_alert_sent db1 user_id level now

/-! ## Encouragement generator (`NotificationManager.send_encouragement`) -/

structure EncBundle where
  title : String
  message : String
  tips : List String
deriving DecidableEq

def enc_green : EncBundle :=
  ⟨"You\x27re doing great! 🌟",
   "Keep up the positive momentum! Remember to maintain healthy habits.",
   ["Continue your regular sleep schedule",
    "Stay connected with friends and family",
    "Keep up with physical activity"]⟩

def enc_yellow : EncBundle :=
  ⟨"We\x27re here for you 💙",
   "It\x27s normal to feel stressed sometimes. Take care of yourself.",
   ["Take short breaks between study sessions",
    "Practice deep breathing exercises",
    "Reach out to a friend or counselor if you need to talk"]⟩

def enc_orange : EncBundle :=
  ⟨"Your wellbeing matters 🤗",
   "We noticed you might be going through a tough time. Please reach out for support.",
   ["Talk to a counselor - they\x27re here to help",
    "Consider taking a mental health day if needed",
    "Don\x27t hesitate to ask for help"]⟩

def enc_red : EncBundle :=
  ⟨"You\x27re not alone ❤️",
   "Please reach out to someone right now. Your safety and wellbeing are important.",
   ["Call campus counseling services immediately",
    "Reach out to a trusted friend or family member",
    "Crisis helpline: 988 (available 24/7)"]⟩

/-- `encouragement_data.get(level, encouragement_data[yellow])`. -/
def encouragement_data (level : String) : EncBundle :=
  if level = "green" then enc_green
  else if level = "yellow" then enc_yellow
  else if level = "orange" then enc_orange
  else if level = "red" then enc_red
  else enc_yellow

/-- `NotificationManager.send_encouragement(user_id, level, mood)`.  The
`mood` parameter appears in the signature of the source but is never read
in the body. -/
def send_encouragement (db : DB) (user_id level : String) (mood : Option String)
    (now : ℤ) : DB :=
  let data := encouragement_data level
  { db with notifications := db.notifications ++
      [{ recipient_id := user_id, ntype := "wellness_encouragement",
         priority := "normal", title := some data.title, message := data.message,
         tips := some data.tips, related_id := none, student_id := none,
         student_name := none, level := some level, preview := none,
         timestamp := now, read := false }] }

/-! ## Spec-side definitions and lemmas for the keyword-scoring claims -/

/-- The adjustment factor one match applies: 0.3 when negated, times the
intensity multiplier of the first intensifier found before the match. -/
def adjFactor (text : Chars) (kw : String) : ℚ :=
  (if check_negation text kw.data then (3/10 : ℚ) else 1) * check_intensity text kw.data

/-- Cascaded sum of a list of factors: `a₀ + a₀a₁ + a₀a₁a₂ + ⋯`, the shape
taken by a running score that is multiplied by each successive factor and
accumulated after each one. -/
def cascadeSum : List ℚ → ℚ
  | [] => 0
  | a :: t => a + a * cascadeSum t

/-- Modelled from the spec claim (not from the source): the contribution of
one tier when every matched keyword is scored independently from the
unmodified tier base score, scaled only by that match\x27s own negation and
intensity adjustments. -/
def tierScoreIndependent (text : Chars) (tier : KeywordTier) : ℚ :=
  ((tier.keywords.filter (fun kw => containsSub text kw.data)).map
    (fun kw => tier.score * adjFactor text kw)).sum

/-- Modelled from the spec claim: total keyword score under per-match
independent scoring. -/
def keywordScoreIndependent (text : Chars) : ℚ :=
  (CRISIS_KEYWORDS.map (tierScoreIndependent text)).sum

lemma scanTierGo_step (text : Chars) (keyword_score : ℚ) (kw : String) :
    (if check_negation text kw.data then keyword_score * (3/10) else keyword_score) *
      check_intensity text kw.data = keyword_score * adjFactor text kw := by
  unfold adjFactor
  by_cases h : check_negation text kw.data <;> simp [h] <;> ring

lemma scanTierGo_base (text : Chars) (tierName category : String) :
    ∀ (kws : List String) (s : ℚ) (st : ScanState),
      (scanTierGo text tierName category kws s st).base_score =
        st.base_score +
          s * cascadeSum ((kws.filter (fun kw => containsSub text kw.data)).map
            (adjFactor text)) := by
  intro kws
  induction kws with
  | nil => intro s st; simp [scanTierGo, cascadeSum]
  | cons kw rest ih =>
    intro s st
    by_cases h : containsSub text kw.data
    · rw [scanTierGo, if_pos h, ih]
      simp only [List.filter_cons, h, List.map_cons, cascadeSum]
      rw [scanTierGo_step]
      ring
    · rw [scanTierGo, if_neg h, ih]
      simp only [List.filter_cons, h]
      simp

lemma scanAllTiers_fold (text : Chars) :
    ∀ (tiers : List KeywordTier) (st : ScanState),
      (tiers.foldl
        (fun acc tier => scanTierGo text tier.name tier.category tier.keywords tier.score acc)
        st).base_score =
      st.base_score +
        (tiers.map (fun tier =>
          tier.score * cascadeSum ((tier.keywords.filter
            (fun kw => containsSub text kw.data)).map (adjFactor text)))).sum := by
  intro tiers
  induction tiers with
  | nil => intro st; simp
  | cons tier rest ih =>
    intro st
    simp only [List.foldl_cons, List.map_cons, List.sum_cons]
    rw [ih, scanTierGo_base]
    ring

/-- The normalized form of the counterexample text for C1. -/
def c1text : Chars := trimChars (lowerChars "not sad and tired")

/-- C1 counterexample: in the text "not sad and tired" the keywords "sad"
and "tired" of the `moderate_concern` tier both match and "sad" is negated;
the source accumulates 8·0.3 + (8·0.3) = 4.8 because the negation scaling
persists in the tier running `keyword_score`, while per-match independent
scoring would give 8·0.3 + 8 = 10.4.  So the contributions are not computed
independently from the unmodified tier base score, refuting the claim. -/
theorem C1_counterexample :
    (scanAllTiers c1text).base_score = 24/5 ∧
    keywordScoreIndependent c1text = 52/5 ∧
    (scanAllTiers c1text).base_score ≠ keywordScoreIndependent c1text := by
  have k1 : (["suicide", "kill myself", "want to die", "end my life", "end it all",
      "better off dead", "no reason to live", "take my life", "suicidal",
      "end it", "ending it", "want to end", "going to end"].filter
        (fun kw => containsSub c1text kw.data)) = [] := by decide
  have k2 : (["self-harm", "hurt myself", "cut myself", "harm myself", "cutting",
      "self injury", "want to hurt"].filter (fun kw => containsSub c1text kw.data)) = [] := by
    decide
  have k3 : (["give up", "no point", "hopeless", "worthless", "useless",
      "failure", "can\x27t take it", "unbearable", "falling apart",
      "broken", "nothing matters", "why bother", "can\x27t go on"].filter
        (fun kw => containsSub c1text kw.data)) = [] := by decide
  have k4 : (["depressed", "depression", "anxious", "anxiety", "panic attack",
      "overwhelmed", "can\x27t cope", "breaking down", "stressed out",
      "exhausted mentally", "losing control", "scared", "terrified",
      "isolated", "alone", "lonely", "nobody cares"].filter
        (fun kw => containsSub c1text kw.data)) = [] := by decide
  have k5 : (["stressed", "worried", "nervous", "sad", "upset", "tired",
      "struggling", "difficult time", "hard to focus", "can\x27t sleep",
      "insomnia", "nightmare", "crying", "unmotivated"].filter
        (fun kw => containsSub c1text kw.data)) = ["sad", "tired"] := by decide
  have k6 : (["feeling better", "improving", "grateful", "thankful", "hopeful",
      "optimistic", "proud", "accomplished", "happy", "excited",
      "motivated", "energized", "confident", "peaceful", "relaxed",
      "relieved", "progress", "getting better", "moving forward"].filter
        (fun kw => containsSub c1text kw.data)) = [] := by decide
  have hsad : adjFactor c1text "sad" = 3/10 := by
    have hn : check_negation c1text "sad".data = true := by decide
    have hi : check_intensity c1text "sad".data = 1 := by decide
    unfold adjFactor
    rw [hn, hi]
    norm_num
  have htired : adjFactor c1text "tired" = 1 := by
    have hn : check_negation c1text "tired".data = false := by decide
    have hi : check_intensity c1text "tired".data = 1 := by decide
    unfold adjFactor
    rw [hn, hi]
    norm_num
  have h1 : (scanAllTiers c1text).base_score = 24/5 := by
    unfold scanAllTiers
    rw [scanAllTiers_fold]
    simp only [CRISIS_KEYWORDS, List.map_cons, List.map_nil, List.sum_cons, List.sum_nil,
      k1, k2, k3, k4, k5, k6, hsad, htired, cascadeSum]
    norm_num
  have h2 : keywordScoreIndependent c1text = 52/5 := by
    unfold keywordScoreIndependent tierScoreIndependent
    simp only [CRISIS_KEYWORDS, List.map_cons, List.map_nil, List.sum_cons, List.sum_nil,
      k1, k2, k3, k4, k5, k6, hsad, htired]
    norm_num
  refine ⟨h1, h2, ?_⟩
  rw [h1, h2]
  norm_num

/-- C1 (amended): each matched keyword contributes the tier\x27s running
score after its own adjustments, where the running score starts at the tier
base score and carries the 0.3 negation scaling and the intensity
multipliers of all earlier matched keywords of the same tier; the
accumulated keyword score of a scan is therefore the sum over tiers of the
tier base score times the cascaded products of the per-match adjustment
factors, in keyword order. -/
theorem C1_amended_cascade (text : Chars) :
    (scanAllTiers text).base_score =
      (CRISIS_KEYWORDS.map (fun tier =>
        tier.score * cascadeSum ((tier.keywords.filter
          (fun kw => containsSub text kw.data)).map (adjFactor text)))).sum := by
  unfold scanAllTiers
  rw [scanAllTiers_fold]
  simp

/-! ## Score bounds and level thresholds -/

/-- Severity order of the levels, for stating monotonicity. -/
def levelRank (level : String) : ℕ :=
  if level = "green" then 0
  else if level = "yellow" then 1
  else if level = "orange" then 2
  else 3

lemma levelRank_determine_level (s : ℚ) :
    levelRank (determine_level s) =
      if 80 ≤ s then 3 else if 60 ≤ s then 2 else if 30 ≤ s then 1 else 0 := by
  unfold determine_level
  split_ifs <;> rfl

/-- C5: for every input the analysis score lies in [0, 100] and the level is
the fixed monotone step function of the score: below 30 green, 30 to 59
yellow, 60 to 79 orange, at least 80 red. -/
theorem C5_score_bounds_and_level :
    (∀ (input : PyInput) (context : String),
      0 ≤ (analyze_text input context).score ∧
      (analyze_text input context).score ≤ 100 ∧
      (analyze_text input context).level =
        determine_level (analyze_text input context).score) ∧
    (∀ s : ℚ,
      (s < 30 → determine_level s = "green") ∧
      (30 ≤ s ∧ s < 60 → determine_level s = "yellow") ∧
      (60 ≤ s ∧ s < 80 → determine_level s = "orange") ∧
      (80 ≤ s → determine_level s = "red")) ∧
    (∀ s t : ℚ, s ≤ t →
      levelRank (determine_level s) ≤ levelRank (determine_level t)) := by
  have hzero : zeroNeutralResult.level = determine_level zeroNeutralResult.score := by
    norm_num [zeroNeutralResult, determine_level]
  refine ⟨?_, ?_, ?_⟩
  · intro input context
    cases input with
    | pyNone => exact ⟨le_refl 0, by norm_num [analyze_text, zeroNeutralResult], hzero⟩
    | pyNonStr => exact ⟨le_refl 0, by norm_num [analyze_text, zeroNeutralResult], hzero⟩
    | pyStr s =>
      simp only [analyze_text]
      split_ifs with h1 h2
      · exact ⟨le_refl 0, by norm_num [zeroNeutralResult], hzero⟩
      · exact ⟨le_refl 0, by norm_num [zeroNeutralResult], hzero⟩
      · refine ⟨le_max_left 0 _, max_le (by norm_num) (min_le_left 100 _), rfl⟩
  · intro s
    refine ⟨fun h => ?_, fun h => ?_, fun h => ?_, fun h => ?_⟩ <;>
      unfold determine_level <;>
      split_ifs <;>
      first
        | rfl
        | (exfalso; rcases h with ⟨ha, hb⟩ <;> linarith)
        | (exfalso; linarith)
  · intro s t hst
    rw [levelRank_determine_level, levelRank_determine_level]
    split_ifs <;> linarith

/-- C5: witness instantiating the thresholds and monotonicity at concrete
scores, and the bounds at a concrete text. -/
theorem C5_witness :
    0 ≤ (analyze_text (.pyStr "i feel hopeless") "message").score ∧
    determine_level 45 = "yellow" ∧
    levelRank (determine_level 10) ≤ levelRank (determine_level 90) :=
  ⟨(C5_score_bounds_and_level.1 (.pyStr "i feel hopeless") "message").1,
   (C5_score_bounds_and_level.2.1 45).2.1 ⟨by norm_num, by norm_num⟩,
   C5_score_bounds_and_level.2.2 10 90 (by norm_num)⟩

/-! ## Malformed and too-short input -/

/-- C8 counterexample: the short-circuit dictionary returned for empty
input has no `categories` key (`none` here), while every full analysis
result carries one; so it does not have the same set of fields as any
other result, refuting that part of the claim. -/
theorem C8_counterexample :
    (analyze_text (.pyStr "") "message").categories = none ∧
    (analyze_text (.pyStr "i feel hopeless") "message").categories = some ["severe"] := by
  exact ⟨by decide, by decide⟩

/-- C8 (amended): null, non-string, empty or shorter-than-3 (after
lower-casing and trimming) input yields the zero-signal neutral result
with score 0, level green, no keywords, neutral sentiment, attention flag
false and confidence 0 — but this short-circuit result omits the
`categories`, `recommendations` and `context` fields that full results
carry. -/
theorem C8_zero_signal :
    ∀ context : String,
      analyze_text .pyNone context = zeroNeutralResult ∧
      analyze_text .pyNonStr context = zeroNeutralResult ∧
      ∀ s : String, (s = "" ∨ (trimChars (lowerChars s)).length < 3) →
        analyze_text (.pyStr s) context = zeroNeutralResult := by
  intro context
  refine ⟨rfl, rfl, ?_⟩
  intro s h
  by_cases h1 : s = ""
  · simp [analyze_text, h1]
  · rcases h with h | h
    · exact absurd h h1
    · simp [analyze_text, h1, h]

/-- C8: witness at the concrete short input "hi". -/
theorem C8_zero_signal_witness :
    analyze_text (.pyStr "hi") "message" = zeroNeutralResult :=
  (C8_zero_signal "message").2.2 "hi" (Or.inr (by decide))

/-! ## Throttle-state read failure -/

/-- C4: when the read of the throttle state raises, the whole alert body is
aborted by the catch-all exception handler and `check_and_send_alerts`
returns with the state unchanged — no alert is emitted for any level,
including orange and red.  This contradicts the claim (and the stated
design intent) that the router defaults to allowing the send on a failed
read; the code silently drops the alert instead. -/
theorem C4_read_failure_drops_alert :
    ∀ (db : DB) (user_id level content : String) (now : ℤ) (transport : Bool),
      check_and_send_alerts db user_id level content now transport true = db := by
  intro db user_id level content now transport
  unfold check_and_send_alerts
  cases lookup_user db user_id <;> simp

/-! ## Encouragement generator -/

/-- C10: the encouragement output is independent of the mood argument
(the body of `send_encouragement` never reads it), and any level outside
{green, yellow, orange, red} falls back to the yellow bundle. -/
theorem C10_encouragement :
    (∀ (db : DB) (user_id level : String) (m1 m2 : Option String) (now : ℤ),
      send_encouragement db user_id level m1 now =
        send_encouragement db user_id level m2 now) ∧
    (∀ level : String,
      level ≠ "green" → level ≠ "yellow" → level ≠ "orange" → level ≠ "red" →
      encouragement_data level = encouragement_data "yellow") := by
  constructor
  · intro db user_id level m1 m2 now
    rfl
  · intro level h1 h2 h3 h4
    unfold encouragement_data
    rw [if_neg h1, if_neg h2, if_neg h3, if_neg h4]
    rfl

/-- C10: witness at two distinct moods and at the unknown level "purple". -/
theorem C10_encouragement_witness :
    send_encouragement ⟨[], [], [], [], [], []⟩ "u1" "green" (some "happy") 0 =
      send_encouragement ⟨[], [], [], [], [], []⟩ "u1" "green" (some "sad") 0 ∧
    encouragement_data "purple" = encouragement_data "yellow" :=
  ⟨C10_encouragement.1 ⟨[], [], [], [], [], []⟩ "u1" "green" (some "happy") (some "sad") 0,
   C10_encouragement.2 "purple" (by decide) (by decide) (by decide) (by decide)⟩

/-! ## Preservation lemmas for the notification layer -/

lemma send_email_notification_fields (db : DB) (user : User) (nt : String)
    (now : ℤ) (tr : Bool) :
    ((send_email_notification db user nt now tr).2).users = db.users ∧
    ((send_email_notification db user nt now tr).2).profiles = db.profiles ∧
    ((send_email_notification db user nt now tr).2).notifications = db.notifications ∧
    ((send_email_notification db user nt now tr).2).wellness_alerts = db.wellness_alerts := by
  unfold send_email_notification log_email_sent
  dsimp only
  split_ifs <;> simp

lemma send_notification_fields (db : DB) (uid nt title msg : String)
    (rid : Option String) (pr : String) (se : Bool) (ec : Option EmailContext)
    (now : ℤ) (tr : Bool) :
    (send_notification db uid nt title msg rid pr se ec now tr).notifications =
      db.notifications ++ [mkNotif uid nt title msg rid pr ec now] ∧
    (send_notification db uid nt title msg rid pr se ec now tr).users = db.users ∧
    (send_notification db uid nt title msg rid pr se ec now tr).profiles = db.profiles ∧
    (send_notification db uid nt title msg rid pr se ec now tr).wellness_alerts =
      db.wellness_alerts := by
  unfold send_notification
  cases se with
  | false => simp
  | true =>
    simp only [if_true]
    cases hu : lookup_user
        { db with notifications :=
            db.notifications ++ [mkNotif uid nt title msg rid pr ec now] } uid with
    | none => simp [hu]
    | some user =>
      simp only [hu]
      cases user.email with
      | none => simp
      | some e =>
        simp only []
        split_ifs with hp
        · obtain ⟨h1, h2, h3, h4⟩ := send_email_notification_fields
            { db with notifications :=
                db.notifications ++ [mkNotif uid nt title msg rid pr ec now] }
            user nt now tr
          exact ⟨by rw [h3], by rw [h1], by rw [h2], by rw [h4]⟩
        · simp

lemma foldl_send_notification (nt title msg : String) (rid : Option String)
    (pr : String) (se : Bool) (ec : Option EmailContext) (now : ℤ) (tr : Bool) :
    ∀ (staff : List User) (db : DB),
      ((staff.foldl
          (fun acc s => send_notification acc s.user_id nt title msg rid pr se ec now tr)
          db).notifications =
        db.notifications ++
          staff.map (fun s => mkNotif s.user_id nt title msg rid pr ec now)) ∧
      ((staff.foldl
          (fun acc s => send_notification acc s.user_id nt title msg rid pr se ec now tr)
          db).users = db.users) ∧
      ((staff.foldl
          (fun acc s => send_notification acc s.user_id nt title msg rid pr se ec now tr)
          db).profiles = db.profiles) ∧
      ((staff.foldl
          (fun acc s => send_notification acc s.user_id nt title msg rid pr se ec now tr)
          db).wellness_alerts = db.wellness_alerts) := by
  intro staff
  induction staff with
  | nil => intro db; simp
  | cons s rest ih =>
    intro db
    simp only [List.foldl_cons, List.map_cons]
    obtain ⟨hn, hu, hp, hw⟩ :=
      ih (send_notification db s.user_id nt title msg rid pr se ec now tr)
    obtain ⟨hn2, hu2, hp2, hw2⟩ :=
      send_notification_fields db s.user_id nt title msg rid pr se ec now tr
    refine ⟨?_, ?_, ?_, ?_⟩
    · rw [hn, hn2]; simp
    · rw [hu, hu2]
    · rw [hp, hp2]
    · rw [hw, hw2]

lemma send_wellness_alert_fields (db : DB) (sid lvl cp ct : String)
    (now : ℤ) (tr : Bool) :
    (send_wellness_alert db sid lvl cp ct now tr).users = db.users ∧
    (send_wellness_alert db sid lvl cp ct now tr).profiles = db.profiles ∧
    (send_wellness_alert db sid lvl cp ct now tr).wellness_alerts = db.wellness_alerts := by
  unfold send_wellness_alert
  cases hu : lookup_user db sid with
  | none => simp [hu]
  | some st =>
    simp only [hu]
    obtain ⟨_, h2, h3, h4⟩ := foldl_send_notification
      (alertFanout lvl).notification_type (alertTitle lvl st.name)
      ("Student " ++ st.name ++ " may need attention. Context: " ++ ct)
      (some sid) (alertFanout lvl).priority (alertFanout lvl).send_email
      (some ⟨sid, st.name, lvl, cp, ct, "http://localhost:3000/wellness/student/" ++ sid⟩)
      now tr
      (db.users.filter (fun u => (alertFanout lvl).recipient_roles.contains u.role)) db
    exact ⟨h2, h3, h4⟩

lemma send_wellness_alert_notifications (db : DB) (sid lvl cp ct : String)
    (now : ℤ) (tr : Bool) (st : User) (hu : lookup_user db sid = some st) :
    (send_wellness_alert db sid lvl cp ct now tr).notifications =
      db.notifications ++
        (db.users.filter (fun x => (alertFanout lvl).recipient_roles.contains x.role)).map
          (fun x => mkNotif x.user_id (alertFanout lvl).notification_type
            (alertTitle lvl st.name)
            ("Student " ++ st.name ++ " may need attention. Context: " ++ ct)
            (some sid) (alertFanout lvl).priority
            (some ⟨sid, st.name, lvl, cp, ct,
              "http://localhost:3000/wellness/student/" ++ sid⟩) now) := by
  unfold send_wellness_alert
  simp only [hu]
  exact (foldl_send_notification _ _ _ _ _ _ _ _ _ _ _).1

lemma send_monitor_alert_eq (db : DB) (uid : String) (user : User)
    (content : String) (now : ℤ) :
    send_monitor_alert db uid user content now =
      { db with notifications := db.notifications ++
          ((db.users.filter (fun u => u.role = "admin")).map (fun a =>
            mkMonitorNotif a.user_id uid user.name content now)) } := by
  unfold send_monitor_alert
  have hgen : ∀ (l : List User) (d : DB),
      l.foldl (fun acc admin =>
        { acc with notifications :=
            acc.notifications ++ [mkMonitorNotif admin.user_id uid user.name content now] })
        d =
      { d with notifications := d.notifications ++
          (l.map (fun a => mkMonitorNotif a.user_id uid user.name content now)) } := by
    intro l
    induction l with
    | nil => intro d; simp
    | cons a rest ih =>
      intro d
      simp only [List.foldl_cons, List.map_cons]
      rw [ih]
      simp
  exact hgen _ db

/-! ## Throttle lemmas -/

lemma maxTimestamp_ge_of_mem {x : ℤ} :
    ∀ {l : List ℤ}, x ∈ l → ∃ m, maxTimestamp l = some m ∧ x ≤ m := by
  intro l
  induction l with
  | nil => intro h; cases h
  | cons t rest ih =>
    intro h
    unfold maxTimestamp
    cases hm : maxTimestamp rest with
    | none =>
      rcases List.mem_cons.mp h with rfl | hx
      · exact ⟨x, rfl, le_refl x⟩
      · obtain ⟨m, hm2, _⟩ := ih hx
        rw [hm] at hm2
        cases hm2
    | some m =>
      rcases List.mem_cons.mp h with rfl | hx
      · exact ⟨max x m, rfl, le_max_left x m⟩
      · obtain ⟨m2, hm2, hle⟩ := ih hx
        rw [hm] at hm2
        injection hm2 with h2
        subst h2
        exact ⟨max t m, rfl, le_trans hle (le_max_right t m)⟩

lemma last_alert_some_ge (db : DB) (u L : String) (t1 : ℤ)
    (hmem : (⟨u, L, t1⟩ : AlertLog) ∈ db.wellness_alerts) :
    ∃ m, last_alert_timestamp db u L = some m ∧ t1 ≤ m := by
  unfold last_alert_timestamp
  apply maxTimestamp_ge_of_mem
  have hf : (⟨u, L, t1⟩ : AlertLog) ∈ db.wellness_alerts.filter
      (fun a => a.user_id = u ∧ a.level = L) :=
    List.mem_filter.mpr ⟨hmem, by simp⟩
  exact List.mem_map.mpr ⟨⟨u, L, t1⟩, hf, rfl⟩

lemma should_throttle_of_recent (db : DB) (u L : String) (now ts : ℤ)
    (h : last_alert_timestamp db u L = some ts)
    (hlt : now - ts < throttle_hours L * 3600) :
    should_throttle_alert db u L now = true := by
  unfold should_throttle_alert
  rw [h]
  exact decide_eq_true hlt

lemma check_alerts_suppressed (db : DB) (u L c : String) (now : ℤ) (tr : Bool)
    (h : should_throttle_alert db u L now = true) :
    check_and_send_alerts db u L c now tr false = db := by
  unfold check_and_send_alerts
  cases hu : lookup_user db u with
  | none => rfl
  | some usr => simp [h]

lemma check_alerts_users (db : DB) (u L c : String) (now : ℤ) (tr rf : Bool) :
    (check_and_send_alerts db u L c now tr rf).users = db.users := by
  unfold check_and_send_alerts log_alert_sent
  cases hu : lookup_user db u with
  | none => rfl
  | some usr =>
    dsimp only
    split_ifs with h1 h2 h3 h4 h5
    · rfl
    · rfl
    · exact (send_wellness_alert_fields _ _ _ _ _ _ _).1
    · exact (send_wellness_alert_fields _ _ _ _ _ _ _).1
    · rw [send_monitor_alert_eq]
    · rfl

lemma check_alerts_wellness (db : DB) (u L c : String) (now : ℤ) (tr : Bool)
    (usr : User) (hu : lookup_user db u = some usr)
    (hth : should_throttle_alert db u L now = false) :
    (check_and_send_alerts db u L c now tr false).wellness_alerts =
      db.wellness_alerts ++ [⟨u, L, now⟩] := by
  unfold check_and_send_alerts log_alert_sent
  rw [hu]
  dsimp only
  rw [if_neg (by simp), if_neg (by simp [hth])]
  split_ifs with h1 h2 h3
  · dsimp only
    unfold send_critical_alert
    rw [(send_wellness_alert_fields _ _ _ _ _ _ _).2.2]
  · dsimp only
    unfold send_high_concern_alert
    rw [(send_wellness_alert_fields _ _ _ _ _ _ _).2.2]
  · dsimp only
    rw [send_monitor_alert_eq]
  · rfl

/-! ## Throttling of repeated alerts -/

/-- C2: for any user and level, an alert evaluation is suppressed with no
state change whenever the most recently logged alert for that (user,
level) pair is younger than the level throttle window (2h for red, 6h for
orange, 24h for yellow); in particular a second call within the window of
an emitting first call is a no-op, so at most one of the two calls emits
alerts and the second emits none. -/
theorem C2_throttle_window :
    (throttle_hours "red" = 2 ∧ throttle_hours "orange" = 6 ∧
      throttle_hours "yellow" = 24) ∧
    (∀ (db : DB) (u L c : String) (now ts : ℤ) (tr : Bool),
      last_alert_timestamp db u L = some ts →
      now - ts < throttle_hours L * 3600 →
      check_and_send_alerts db u L c now tr false = db) ∧
    (∀ (db : DB) (u L c c2 : String) (t1 t2 : ℤ) (tr tr2 : Bool) (usr : User),
      (L = "red" ∨ L = "orange" ∨ L = "yellow") →
      lookup_user db u = some usr →
      should_throttle_alert db u L t1 = false →
      t2 - t1 < throttle_hours L * 3600 →
      check_and_send_alerts (check_and_send_alerts db u L c t1 tr false) u L c2 t2 tr2 false
        = check_and_send_alerts db u L c t1 tr false) := by
  refine ⟨⟨rfl, rfl, rfl⟩, ?_, ?_⟩
  · intro db u L c now ts tr h hlt
    exact check_alerts_suppressed db u L c now tr (should_throttle_of_recent db u L now ts h hlt)
  · intro db u L c c2 t1 t2 tr tr2 usr _hL hu hth hwin
    have hw : (check_and_send_alerts db u L c t1 tr false).wellness_alerts =
        db.wellness_alerts ++ [⟨u, L, t1⟩] :=
      check_alerts_wellness db u L c t1 tr usr hu hth
    have hmem : (⟨u, L, t1⟩ : AlertLog) ∈
        (check_and_send_alerts db u L c t1 tr false).wellness_alerts := by
      rw [hw]; simp
    obtain ⟨m, hlast, hge⟩ :=
      last_alert_some_ge (check_and_send_alerts db u L c t1 tr false) u L t1 hmem
    exact check_alerts_suppressed _ u L c2 t2 tr2
      (should_throttle_of_recent _ u L t2 m hlast (by linarith))

/-- C2: witness — a fresh user alerts at time 0 and a red-level repeat at
time 100 seconds (inside the 2 hour window) is a no-op. -/
theorem C2_throttle_window_witness :
    check_and_send_alerts
        (check_and_send_alerts ⟨[⟨"u1", "Ann", "student", none⟩], [], [], [], [], []⟩
          "u1" "red" "hello" 0 false false)
        "u1" "red" "hello" 100 false false
      = check_and_send_alerts ⟨[⟨"u1", "Ann", "student", none⟩], [], [], [], [], []⟩
          "u1" "red" "hello" 0 false false :=
  C2_throttle_window.2.2 ⟨[⟨"u1", "Ann", "student", none⟩], [], [], [], [], []⟩
    "u1" "red" "hello" "hello" 0 100 false false ⟨"u1", "Ann", "student", none⟩
    (Or.inl rfl) (by decide) (by decide) (by decide)

/-! ## Green-level invocations -/

/-- Concrete database for the C9 counterexample: one student, no staff,
no prior alerts. -/
def c9db : DB := ⟨[⟨"u1", "Ann", "student", none⟩], [], [], [], [], []⟩

/-- C9 counterexample: a green-level invocation emits no notification but
still writes an alert log: `log_alert_sent` runs unconditionally after the
level dispatch, so the throttle state is NOT left unchanged for green. -/
theorem C9_counterexample :
    (check_and_send_alerts c9db "u1" "green" "hello" 0 false false).notifications = [] ∧
    (check_and_send_alerts c9db "u1" "green" "hello" 0 false false).wellness_alerts =
      [⟨"u1", "green", 0⟩] ∧
    c9db.wellness_alerts = [] := by
  exact ⟨by decide, by decide, by decide⟩

/-- C9 (amended): a green-level invocation emits no staff notification,
but `lastSentAt` is recorded for every non-throttled invocation including
green: the alert log gains a (user, green, now) entry. -/
theorem C9_green_no_alert_but_logged :
    ∀ (db : DB) (u c : String) (now : ℤ) (tr : Bool) (usr : User),
      lookup_user db u = some usr →
      should_throttle_alert db u "green" now = false →
      (check_and_send_alerts db u "green" c now tr false).notifications =
        db.notifications ∧
      (check_and_send_alerts db u "green" c now tr false).wellness_alerts =
        db.wellness_alerts ++ [⟨u, "green", now⟩] := by
  intro db u c now tr usr hu hth
  constructor
  · unfold check_and_send_alerts log_alert_sent
    rw [hu]
    dsimp only
    rw [if_neg (by simp), if_neg (by simp [hth]), if_neg (by decide), if_neg (by decide),
      if_neg (by decide)]
  · exact check_alerts_wellness db u "green" c now tr usr hu hth

/-- C9: witness at the concrete one-student database. -/
theorem C9_green_witness :
    (check_and_send_alerts c9db "u1" "green" "hi" 0 false false).notifications =
      c9db.notifications ∧
    (check_and_send_alerts c9db "u1" "green" "hi" 0 false false).wellness_alerts =
      c9db.wellness_alerts ++ [⟨"u1", "green", 0⟩] :=
  C9_green_no_alert_but_logged c9db "u1" "hi" 0 false ⟨"u1", "Ann", "student", none⟩
    (by decide) (by decide)

/-! ## Email anti-spam window -/

/-- Concrete database for the C3 counterexample: a counselor with an email
address who already received a successful `high_concern_alert` email at
time 0. -/
def c3db : DB :=
  ⟨[⟨"c1", "Cara", "counselor", some "c@x"⟩], [], [], [],
   [⟨"c@x", "high_concern_alert", 0, true⟩], []⟩

def c3user : User := ⟨"c1", "Cara", "counselor", some "c@x"⟩

/-- C3 counterexample: one hour after a successful orange-level email to
the same recipient — inside the 2 hour window, as the recency check
confirms — a new `high_concern_alert` email is still attempted, because
the anti-spam check only covers the types `wellness_alert` and
`critical_wellness_alert`.  So the window does not apply to the
orange-level email type, refuting the claim. -/
theorem C3_counterexample :
    check_email_sent_recently c3db "c@x" "high_concern_alert" 2 3600 = true ∧
    ((send_email_notification c3db c3user "high_concern_alert" 3600 true).2).sent_emails =
      [⟨"c@x", "high_concern_alert"⟩] ∧
    c3db.sent_emails = [] := by
  exact ⟨by decide, by decide, by decide⟩

/-- C3 (amended): the 2 hour per-recipient anti-spam window is applied only
to the email types `wellness_alert` and `critical_wellness_alert`; the
red-level `critical_wellness_alert` email is suppressed when a same-type
email was sent to the recipient within 2 hours, while the orange-level
`high_concern_alert` email bypasses the check and is always attempted. -/
theorem C3_email_window_red_only :
    ∀ (db : DB) (user : User) (now : ℤ) (tr : Bool),
      (check_email_sent_recently db (user.email.getD "") "critical_wellness_alert" 2 now = true →
        send_email_notification db user "critical_wellness_alert" now tr = (false, db)) ∧
      ((send_email_notification db user "high_concern_alert" now tr).2.sent_emails =
        db.sent_emails ++ [⟨user.email.getD "", "high_concern_alert"⟩]) := by
  intro db user now tr
  constructor
  · intro h
    unfold send_email_notification
    rw [if_pos ⟨Or.inr rfl, h⟩]
  · unfold send_email_notification log_email_sent
    rw [if_neg (by simp)]
    dsimp only
    rw [if_pos (by simp)]

/-- C3: witness — with a recent successful red-level email on record the
red email is suppressed, and the orange email of the counterexample
configuration is attempted. -/
theorem C3_email_window_witness :
    send_email_notification
        ⟨[⟨"c1", "Cara", "counselor", some "c@x"⟩], [], [], [],
         [⟨"c@x", "critical_wellness_alert", 0, true⟩], []⟩
        c3user "critical_wellness_alert" 3600 true =
      (false,
        ⟨[⟨"c1", "Cara", "counselor", some "c@x"⟩], [], [], [],
         [⟨"c@x", "critical_wellness_alert", 0, true⟩], []⟩) ∧
    ((send_email_notification c3db c3user "high_concern_alert" 3600 true).2.sent_emails =
      c3db.sent_emails ++ [⟨"c@x", "high_concern_alert"⟩]) :=
  ⟨(C3_email_window_red_only
      ⟨[⟨"c1", "Cara", "counselor", some "c@x"⟩], [], [], [],
       [⟨"c@x", "critical_wellness_alert", 0, true⟩], []⟩
      c3user 3600 true).1 (by decide),
   (C3_email_window_red_only c3db c3user 3600 true).2⟩

/-! ## Role fan-out table -/

/-- C7: the fan-out table is exactly as specified — red to teacher,
counselor and admin at priority urgent with the email channel requested;
orange to counselor and admin at priority high with email; yellow to
admin only at priority normal with no email.  The monitor (yellow) path
appends exactly one in-app notification per admin and leaves all email
state untouched, and `send_wellness_alert` appends exactly one in-app
notification per staff member whose role is in the level table, carrying
the table priority and notification type. -/
theorem C7_fanout_table :
    alertFanout "red" =
      ⟨"critical_wellness_alert", "urgent", true, ["teacher", "counselor", "admin"]⟩ ∧
    alertFanout "orange" = ⟨"high_concern_alert", "high", true, ["counselor", "admin"]⟩ ∧
    alertFanout "yellow" = ⟨"monitor_alert", "normal", false, ["admin"]⟩ ∧
    (∀ (db : DB) (uid : String) (usr : User) (content : String) (now : ℤ),
      send_monitor_alert db uid usr content now =
        { db with notifications := db.notifications ++
            ((db.users.filter (fun u => u.role = "admin")).map (fun a =>
              mkMonitorNotif a.user_id uid usr.name content now)) }) ∧
    (∀ (db : DB) (u c : String) (now : ℤ) (tr : Bool),
      (check_and_send_alerts db u "yellow" c now tr false).email_notifications =
        db.email_notifications ∧
      (check_and_send_alerts db u "yellow" c now tr false).sent_emails =
        db.sent_emails) ∧
    (∀ (db : DB) (sid lvl cp ct : String) (now : ℤ) (tr : Bool) (st : User),
      lookup_user db sid = some st →
      (send_wellness_alert db sid lvl cp ct now tr).notifications =
        db.notifications ++
          ((db.users.filter
              (fun x => (alertFanout lvl).recipient_roles.contains x.role)).map
            (fun x => mkNotif x.user_id (alertFanout lvl).notification_type
              (alertTitle lvl st.name)
              ("Student " ++ st.name ++ " may need attention. Context: " ++ ct)
              (some sid) (alertFanout lvl).priority
              (some ⟨sid, st.name, lvl, cp, ct,
                "http://localhost:3000/wellness/student/" ++ sid⟩) now))) := by
  refine ⟨rfl, rfl, rfl, ?_, ?_, ?_⟩
  · intro db uid usr content now
    exact send_monitor_alert_eq db uid usr content now
  · intro db u c now tr
    unfold check_and_send_alerts log_alert_sent
    cases hu : lookup_user db u with
    | none => exact ⟨rfl, rfl⟩
    | some usr =>
      dsimp only
      by_cases h2 : should_throttle_alert db u "yellow" now = true
      · rw [if_neg (by simp), if_pos h2]
        exact ⟨rfl, rfl⟩
      · rw [if_neg (by simp), if_neg h2, if_neg (by decide), if_neg (by decide), if_pos rfl]
        constructor <;> (dsimp only; rw [send_monitor_alert_eq])
  · intro db sid lvl cp ct now tr st hu
    exact send_wellness_alert_notifications db sid lvl cp ct now tr st hu

/-- Concrete database for the C7 witness: a student and one member of each
staff role. -/
def c7db : DB :=
  ⟨[⟨"s1", "Sam", "student", none⟩, ⟨"t1", "Tia", "teacher", some "t@x"⟩,
    ⟨"k1", "Kim", "counselor", some "k@x"⟩, ⟨"a1", "Ada", "admin", some "a@x"⟩],
   [], [], [], [], []⟩

/-- C7: witness instantiating the wellness-alert fan-out at a concrete
database with one staff member of each role, at level red. -/
theorem C7_fanout_witness :
    (send_wellness_alert c7db "s1" "red" "prev" "message" 0 false).notifications =
      c7db.notifications ++
        ((c7db.users.filter
            (fun x => (alertFanout "red").recipient_roles.contains x.role)).map
          (fun x => mkNotif x.user_id (alertFanout "red").notification_type
            (alertTitle "red" "Sam")
            ("Student " ++ "Sam" ++ " may need attention. Context: " ++ "message")
            (some "s1") (alertFanout "red").priority
            (some ⟨"s1", "Sam", "red", "prev", "message",
              "http://localhost:3000/wellness/student/" ++ "s1"⟩) 0)) :=
  C7_fanout_table.2.2.2.2.2 c7db "s1" "red" "prev" "message" 0 false
    ⟨"s1", "Sam", "student", none⟩ (by decide)

/-! ## Trend analysis lemmas -/

lemma insertByTs_length (x : WellnessLog) :
    ∀ l : List WellnessLog, (insertByTs x l).length = l.length + 1 := by
  intro l
  induction l with
  | nil => rfl
  | cons y t ih =>
    unfold insertByTs
    split_ifs
    · rfl
    · simp [ih]

lemma sortByTs_length (l : List WellnessLog) : (sortByTs l).length = l.length := by
  induction l with
  | nil => rfl
  | cons x t ih =>
    show (insertByTs x (sortByTs t)).length = t.length + 1
    rw [insertByTs_length, ih]

lemma mem_insertByTs {y x : WellnessLog} :
    ∀ {l : List WellnessLog}, y ∈ insertByTs x l → y = x ∨ y ∈ l := by
  intro l
  induction l with
  | nil => intro h; simpa [insertByTs] using h
  | cons z t ih =>
    intro h
    unfold insertByTs at h
    split_ifs at h
    · simpa using h
    · rcases List.mem_cons.mp h with rfl | h2
      · exact Or.inr (List.mem_cons_self _ _)
      · rcases ih h2 with h3 | h3
        · exact Or.inl h3
        · exact Or.inr (List.mem_cons_of_mem _ h3)

lemma mem_sortByTs {y : WellnessLog} :
    ∀ {l : List WellnessLog}, y ∈ sortByTs l → y ∈ l := by
  intro l
  induction l with
  | nil => intro h; simpa [sortByTs] using h
  | cons x t ih =>
    intro h
    rcases mem_insertByTs h with rfl | h2
    · exact List.mem_cons_self _ _
    · exact List.mem_cons_of_mem _ (ih h2)

lemma sumScores_const (c : ℚ) :
    ∀ l : List WellnessLog, (∀ x ∈ l, x.score = c) → sumScores l = c * (l.length : ℚ) := by
  intro l
  induction l with
  | nil => intro _; simp [sumScores]
  | cons x t ih =>
    intro h
    have hx : x.score = c := h x (List.mem_cons_self _ _)
    have ht : sumScores t = c * (t.length : ℚ) :=
      ih (fun y hy => h y (List.mem_cons_of_mem _ hy))
    unfold sumScores at *
    simp only [List.map_cons, List.sum_cons, ht, hx, List.length_cons]
    push_cast
    ring

/-- The stable outcome on constant-score histories, in full: both window
means equal the constant, the change is zero and the result is stable. -/
lemma get_trend_analysis_const (logs : List WellnessLog) (c : ℚ)
    (hlen : 2 ≤ logs.length) (hconst : ∀ x ∈ logs, x.score = c) :
    get_trend_analysis logs = ⟨"stable", "neutral", 0, some c, some c⟩ := by
  have hslen : (sortByTs logs).length = logs.length := sortByTs_length logs
  have hmid1 : 1 ≤ (sortByTs logs).length / 2 := by
    rw [Nat.one_le_div_iff (by norm_num)]
    omega
  have hmidlt : (sortByTs logs).length / 2 < (sortByTs logs).length :=
    Nat.div_lt_self (by omega) (by norm_num)
  have htakelen : ((sortByTs logs).take ((sortByTs logs).length / 2)).length =
      (sortByTs logs).length / 2 := by
    rw [List.length_take]
    exact min_eq_left (le_of_lt hmidlt)
  have hdroplen : ((sortByTs logs).drop ((sortByTs logs).length / 2)).length =
      (sortByTs logs).length - (sortByTs logs).length / 2 := List.length_drop _ _
  have htake : ∀ x ∈ (sortByTs logs).take ((sortByTs logs).length / 2), x.score = c :=
    fun x hx => hconst x (mem_sortByTs (List.take_subset _ _ hx))
  have hdrop : ∀ x ∈ (sortByTs logs).drop ((sortByTs logs).length / 2), x.score = c :=
    fun x hx => hconst x (mem_sortByTs (List.drop_subset _ _ hx))
  have he : sumScores ((sortByTs logs).take ((sortByTs logs).length / 2)) /
      ((((sortByTs logs).take ((sortByTs logs).length / 2)).length : ℕ) : ℚ) = c := by
    rw [sumScores_const c _ htake]
    have hn : ((((sortByTs logs).take ((sortByTs logs).length / 2)).length : ℕ) : ℚ) ≠ 0 := by
      rw [htakelen]
      exact_mod_cast Nat.one_le_iff_ne_zero.mp hmid1
    exact mul_div_cancel_right₀ c hn
  have hl : sumScores ((sortByTs logs).drop ((sortByTs logs).length / 2)) /
      ((((sortByTs logs).drop ((sortByTs logs).length / 2)).length : ℕ) : ℚ) = c := by
    rw [sumScores_const c _ hdrop]
    have hn : ((((sortByTs logs).drop ((sortByTs logs).length / 2)).length : ℕ) : ℚ) ≠ 0 := by
      rw [hdroplen]
      have : 1 ≤ (sortByTs logs).length - (sortByTs logs).length / 2 := by omega
      exact_mod_cast Nat.one_le_iff_ne_zero.mp this
    exact mul_div_cancel_right₀ c hn
  unfold get_trend_analysis
  rw [if_neg (not_lt.mpr hlen)]
  dsimp only
  rw [he, hl]
  rw [if_neg (by norm_num), if_neg (by norm_num)]
  simp

/-- C6: a history of fewer than 2 results gives insufficient_data with
neutral direction and zero change percentage; a history of at least 2
results is split at the midpoint (floor of length/2) of the
timestamp-sorted sequence, the change is the later mean minus the earlier
mean, the change percentage is change / max(meanEarlier, 1) · 100, and the
classification is worsening/up above +10, improving/down below −10, and
stable/neutral otherwise — in particular an all-equal history is stable. -/
theorem C6_trend_analysis :
    (∀ logs : List WellnessLog, logs.length < 2 →
      get_trend_analysis logs = ⟨"insufficient_data", "neutral", 0, none, none⟩) ∧
    (∀ logs : List WellnessLog, 2 ≤ logs.length →
      (let sorted := sortByTs logs
       let mid := sorted.length / 2
       let meanEarlier := sumScores (sorted.take mid) / (((sorted.take mid).length : ℕ) : ℚ)
       let meanLater := sumScores (sorted.drop mid) / (((sorted.drop mid).length : ℕ) : ℚ)
       let change := meanLater - meanEarlier
       (get_trend_analysis logs).change_percentage = change / max meanEarlier 1 * 100 ∧
       (get_trend_analysis logs).previous_average = some meanEarlier ∧
       (get_trend_analysis logs).current_average = some meanLater ∧
       (10 < change → (get_trend_analysis logs).trend = "worsening" ∧
         (get_trend_analysis logs).direction = "up") ∧
       (change < -10 → (get_trend_analysis logs).trend = "improving" ∧
         (get_trend_analysis logs).direction = "down") ∧
       (¬ 10 < change → ¬ change < -10 → (get_trend_analysis logs).trend = "stable" ∧
         (get_trend_analysis logs).direction = "neutral"))) ∧
    (∀ (logs : List WellnessLog) (c : ℚ), 2 ≤ logs.length →
      (∀ x ∈ logs, x.score = c) →
      get_trend_analysis logs = ⟨"stable", "neutral", 0, some c, some c⟩) := by
  refine ⟨?_, ?_, ?_⟩
  · intro logs h
    unfold get_trend_analysis
    rw [if_pos h]
  · intro logs hlen
    have hnlt : ¬ logs.length < 2 := not_lt.mpr hlen
    unfold get_trend_analysis
    rw [if_neg hnlt]
    dsimp only
    split_ifs with hc1 hc2
    · exact ⟨rfl, rfl, rfl, fun _ => ⟨rfl, rfl⟩,
        fun h => absurd hc1 (by linarith), fun h _ => absurd hc1 h⟩
    · exact ⟨rfl, rfl, rfl, fun h => absurd h hc1,
        fun _ => ⟨rfl, rfl⟩, fun _ h => absurd hc2 h⟩
    · exact ⟨rfl, rfl, rfl, fun h => absurd h hc1,
        fun h => absurd h hc2, fun _ _ => ⟨rfl, rfl⟩⟩
  · intro logs c hlen hconst
    exact get_trend_analysis_const logs c hlen hconst

/-- C6: witness — the empty and one-element histories are insufficient,
and a concrete two-element all-equal history is stable. -/
theorem C6_trend_analysis_witness :
    get_trend_analysis [] = ⟨"insufficient_data", "neutral", 0, none, none⟩ ∧
    get_trend_analysis [⟨0, 40⟩] = ⟨"insufficient_data", "neutral", 0, none, none⟩ ∧
    get_trend_analysis [⟨0, 50⟩, ⟨60, 50⟩] = ⟨"stable", "neutral", 0, some 50, some 50⟩ :=
  ⟨C6_trend_analysis.1 [] (by decide),
   C6_trend_analysis.1 [⟨0, 40⟩] (by decide),
   C6_trend_analysis.2.2 [⟨0, 50⟩, ⟨60, 50⟩] 50 (by decide) (by decide)⟩

end AcadWell
